import Mathlib

/-!
Verification of the ebay-flipper-2 scanner (`run.py`).

Currency amounts and rates are modelled as rationals (`ℚ`); Python's
`round(x, n)` (round-half-to-even) is modelled exactly on `ℚ`.
The estimator (`compute_row`), median, pagination fetcher
(`find_sold_totals`), response parser (`parse_active_items`) and the
keyword loop of `main` are embedded as pure Lean functions.
-/

namespace EbayFlipper

/-- Default marketplace fee rate (`DEFAULT_EBAY_FEE_RATE = 0.128`). -/
def DEFAULT_EBAY_FEE_RATE : ℚ := 0.128

/-- Default payment fee rate (`DEFAULT_PAYMENT_FEE_RATE = 0.029`). -/
def DEFAULT_PAYMENT_FEE_RATE : ℚ := 0.029

/-- Default payment fixed fee (`DEFAULT_PAYMENT_FIXED_FEE = 0.30`). -/
def DEFAULT_PAYMENT_FIXED_FEE : ℚ := 0.30

/-- Default outbound shipping cost (`DEFAULT_SHIPPING_OUT = 4.50`). -/
def DEFAULT_SHIPPING_OUT : ℚ := 4.50

/-- Minimum absolute profit threshold (`MIN_PROFIT_GBP = 25.0`). -/
def MIN_PROFIT_GBP : ℚ := 25.0

/-- Minimum margin threshold (`MIN_MARGIN = 0.25`). -/
def MIN_MARGIN : ℚ := 0.25

/-- Python's `statistics.median`: sort the data; for an odd count take the
middle element, for an even count average the two middle elements.
(`run.py` line 228 calls `statistics.median(sold_totals)`.) -/
def median (l : List ℚ) : ℚ :=
  let s := l.insertionSort (· ≤ ·)
  let n := s.length
  if n % 2 = 1 then s.getD (n / 2) 0
  else (s.getD (n / 2 - 1) 0 + s.getD (n / 2) 0) / 2

/-- An active listing as produced by `parse_active_items`: the dict keys
`active_title`, `active_item_id`, `active_url`, `active_price_gbp`,
`active_shipping_gbp`, `active_buy_price_gbp`. -/
structure ActiveListing where
  active_title : String
  active_item_id : String
  active_url : String
  active_price_gbp : ℚ
  active_shipping_gbp : ℚ
  active_buy_price_gbp : ℚ
deriving DecidableEq, Repr

/-- An output row of `compute_row` (the dict literal at `run.py` 241-254). -/
structure OpportunityRow where
  keyword : String
  active_title : String
  active_item_id : String
  active_url : String
  active_buy_price_gbp : ℚ
  median_sold_price_gbp : ℚ
  sold_sample_size : ℕ
  ebay_fee_gbp : ℚ
  payment_fee_gbp : ℚ
  shipping_out_gbp : ℚ
  expected_profit_gbp : ℚ
  margin_percent : ℚ
deriving DecidableEq, Repr

/-- Python's `round(x, ndigits)`: round half to even, on the scaled value. -/
def roundHalfEven (x : ℚ) : ℤ :=
  let f := ⌊x⌋
  let r := x - f
  if r < 1 / 2 then f
  else if 1 / 2 < r then f + 1
  else if f % 2 = 0 then f else f + 1

/-- Python's `round(x, ndigits)` as a rational. -/
def pyRound (x : ℚ) (ndigits : ℕ) : ℚ :=
  (roundHalfEven (x * 10 ^ ndigits) : ℚ) / 10 ^ ndigits

/-- Function `compute_row` (`run.py` 216-254): combine one active listing and the
sold sample with the fee model, rejecting on an empty sample, on
`expected_profit < MIN_PROFIT_GBP`, or on `margin < MIN_MARGIN`. -/
def compute_row (keyword : String) (active : ActiveListing)
    (sold_totals : List ℚ) (ebay_fee_rate payment_fee_rate
    payment_fixed_fee shipping_out : ℚ) : Option OpportunityRow :=
  if sold_totals.length = 0 then none
  else
    let median_sold := median sold_totals
    let ebay_fee := median_sold * ebay_fee_rate
    let payment_fee := median_sold * payment_fee_rate + payment_fixed_fee
    let active_buy := active.active_buy_price_gbp
    let expected_profit :=
      median_sold - ebay_fee - payment_fee - shipping_out - active_buy
    let margin := if active_buy > 0 then expected_profit / active_buy else -1
    if expected_profit < MIN_PROFIT_GBP then none
    else if margin < MIN_MARGIN then none
    else some
      { keyword := keyword
        active_title := active.active_title
        active_item_id := active.active_item_id
        active_url := active.active_url
        active_buy_price_gbp := pyRound active_buy 2
        median_sold_price_gbp := pyRound median_sold 2
        sold_sample_size := sold_totals.length
        ebay_fee_gbp := pyRound ebay_fee 2
        payment_fee_gbp := pyRound payment_fee 2
        shipping_out_gbp := pyRound shipping_out 2
        expected_profit_gbp := pyRound expected_profit 2
        margin_percent := pyRound (margin * 100) 1 }

/-- The expected profit formula of `compute_row` (`run.py` 229-233),
as a function of the same inputs. -/
def expectedProfit (sold_totals : List ℚ) (ebay_fee_rate payment_fee_rate
    payment_fixed_fee shipping_out buy : ℚ) : ℚ :=
  let m := median sold_totals
  m - m * ebay_fee_rate - (m * payment_fee_rate + payment_fixed_fee)
    - shipping_out - buy

/-- The margin formula of `compute_row` (`run.py` 234): the profit/cost
ratio when the buy price is positive, else the sentinel `-1`. -/
def marginOf (expected_profit buy : ℚ) : ℚ :=
  if buy > 0 then expected_profit / buy else -1

/-- One API page as `find_sold_totals` consumes it: the sold totals
`parse_sold_totals(root)` extracts, and the reported
`paginationOutput.totalPages` value. -/
structure ApiPage where
  totals : List ℚ
  totalPages : ℕ
deriving DecidableEq, Repr

/-- The `while` loop of `find_sold_totals` (`run.py` 186-211), over an
abstract API (page number ↦ parsed response), with the page fetches made
explicit: each fetch issued by the loop is recorded in `log` as the pair
(requested page number, `totalPages` reported by the most recent
response).  `fuel` bounds the iteration count: the Python loop has no
such bound (an adversarial API reporting ever-growing `totalPages` makes
it diverge), and every property proved below holds for every `fuel`. -/
def fetchLoop (api : ℕ → ApiPage) (sold_limit : ℕ) :
    ℕ → List ℚ → ℕ → ApiPage → List (ℕ × ℕ) → List ℚ × List (ℕ × ℕ)
  | 0, totals, _, _, log => (totals, log)
  | fuel + 1, totals, page, root, log =>
    if totals.length < sold_limit then
      let total_pages := root.totalPages
      let page1 := page + 1
      if page1 > total_pages then (totals, log)
      else
        let root1 := api page1
        fetchLoop api sold_limit fuel (totals ++ root1.totals) page1 root1
          (log ++ [(page1, total_pages)])
    else (totals, log)

/-- Function `find_sold_totals` (`run.py` 156-213) over the abstract API: fetch
page 1, loop while short of `sold_limit` and pages remain, then truncate
to `sold_limit` (`totals[:sold_limit]`).  Returns the truncated totals
together with the loop's page-fetch log. -/
def find_sold_totals (api : ℕ → ApiPage) (sold_limit : ℕ) (fuel : ℕ) :
    List ℚ × List (ℕ × ℕ) :=
  let root := api 1
  let r := fetchLoop api sold_limit fuel root.totals 1 root []
  (r.1.take sold_limit, r.2)

/-- A wrapped price object as seen by `_get_price`: Python's
`float(obj.get("__value__"))` either yields a numeric value or raises
(key absent, `None`, or a non-numeric string). -/
inductive PriceField where
  | numeric (q : ℚ)
  | malformed
  | absent
deriving DecidableEq, Repr

/-- Function `_get_price` (`run.py` 69-74): the parsed value, or `none` when the
`float(...)` conversion raises for any reason. -/
def getPrice : PriceField → Option ℚ
  | .numeric q => some q
  | .malformed => none
  | .absent => none

/-- A raw search-response item, reduced to the fields
`parse_active_items` reads.  The Finding API's one-element list wrappers
are collapsed: the `.get(key, [default])[0]` idiom makes an absent
wrapper behave as the default, so a missing string field is `none`; the
shipping wrapper chain (`shippingInfo` / `shippingServiceCost`, including
a non-list or empty-list value) collapses to a single `PriceField`. -/
structure RawItem where
  title : Option String
  itemId : Option String
  viewItemURL : Option String
  currentPrice : PriceField
  shippingServiceCost : PriceField
deriving DecidableEq, Repr

/-- Function `parse_active_items` (`run.py` 77-110): per record, read the string
fields with `""` defaults, parse the price, default shipping to `0.0`
when its value does not parse, and drop the record (`continue`) when the
price does not parse. -/
def parse_active_items (items : List RawItem) : List ActiveListing :=
  items.filterMap fun it =>
    let title := (it.title.getD "").trim
    let item_id := (it.itemId.getD "").trim
    let url := (it.viewItemURL.getD "").trim
    let price := getPrice it.currentPrice
    let shipping : ℚ :=
      match getPrice it.shippingServiceCost with
      | some v => v
      | none => 0
    match price with
    | none => none
    | some p =>
      some { active_title := title
             active_item_id := item_id
             active_url := url
             active_price_gbp := p
             active_shipping_gbp := shipping
             active_buy_price_gbp := p + shipping }

/-- The body of `main`'s per-keyword loop (`run.py` 288-310): fetch the
active listings and the sold sample (either fetch may raise, modelled by
`Except`; `find_active` runs first, and any failure skips the keyword
via `continue`), then keep every row `compute_row` accepts. -/
def keywordRows (find_active : String → Except String (List ActiveListing))
    (find_sold : String → Except String (List ℚ))
    (ebay_fee_rate payment_fee_rate payment_fixed_fee shipping_out : ℚ)
    (kw : String) : List OpportunityRow :=
  match find_active kw with
  | .error _ => []
  | .ok active_items =>
    match find_sold kw with
    | .error _ => []
    | .ok sold_totals =>
      active_items.filterMap fun a =>
        compute_row kw a sold_totals ebay_fee_rate payment_fee_rate
          payment_fixed_fee shipping_out

/-- The keyword loop of `main` (`run.py` 286-310): process the keywords
in order, accumulating the accepted rows. -/
def mainRows (find_active : String → Except String (List ActiveListing))
    (find_sold : String → Except String (List ℚ))
    (ebay_fee_rate payment_fee_rate payment_fixed_fee shipping_out : ℚ)
    (keywords : List String) : List OpportunityRow :=
  keywords.foldl
    (fun rows kw =>
      rows ++ keywordRows find_active find_sold ebay_fee_rate
        payment_fee_rate payment_fixed_fee shipping_out kw)
    []

/-- The row `compute_row` builds on acceptance (`run.py` 241-254),
written with `expectedProfit` and `marginOf`. -/
def acceptedRow (keyword : String) (active : ActiveListing)
    (sold_totals : List ℚ) (ebay_fee_rate payment_fee_rate
    payment_fixed_fee shipping_out : ℚ) : OpportunityRow :=
  let m := median sold_totals
  let ep := expectedProfit sold_totals ebay_fee_rate payment_fee_rate
    payment_fixed_fee shipping_out active.active_buy_price_gbp
  let mg := marginOf ep active.active_buy_price_gbp
  { keyword := keyword
    active_title := active.active_title
    active_item_id := active.active_item_id
    active_url := active.active_url
    active_buy_price_gbp := pyRound active.active_buy_price_gbp 2
    median_sold_price_gbp := pyRound m 2
    sold_sample_size := sold_totals.length
    ebay_fee_gbp := pyRound (m * ebay_fee_rate) 2
    payment_fee_gbp := pyRound (m * payment_fee_rate + payment_fixed_fee) 2
    shipping_out_gbp := pyRound shipping_out 2
    expected_profit_gbp := pyRound ep 2
    margin_percent := pyRound (mg * 100) 1 }

/-- The end-to-end scenario listing: priced 40.00 plus 5.00 shipping,
so `buy_price = 45.00`. -/
def gameBoyListing : ActiveListing :=
  { active_title := "Game Boy"
    active_item_id := "123"
    active_url := "https://example.test/item/123"
    active_price_gbp := 40
    active_shipping_gbp := 5
    active_buy_price_gbp := 45 }

/-- The same scenario listing with `buy_price = 20.00`. -/
def gameBoyListing20 : ActiveListing :=
  { gameBoyListing with active_buy_price_gbp := 20 }

/-- The row the accepted scenario produces: median 85, fees 10.88 and
2.765 → 2.76, profit 46.855 → 46.86, margin 234.275% → 234.3%. -/
def gameBoyRow : OpportunityRow :=
  { keyword := "game boy"
    active_title := "Game Boy"
    active_item_id := "123"
    active_url := "https://example.test/item/123"
    active_buy_price_gbp := 20
    median_sold_price_gbp := 85
    sold_sample_size := 3
    ebay_fee_gbp := 10.88
    payment_fee_gbp := 2.76
    shipping_out_gbp := 4.50
    expected_profit_gbp := 46.86
    margin_percent := 234.3 }

/-- A listing with `buy_price = 0`, for the sentinel-margin guard. -/
def zeroBuyListing : ActiveListing :=
  { active_title := "freebie"
    active_item_id := "0"
    active_url := "https://example.test/item/0"
    active_price_gbp := 0
    active_shipping_gbp := 0
    active_buy_price_gbp := 0 }

/-- A constant three-page API: every page reports two totals and
`totalPages = 3`. -/
def constApi : ℕ → ApiPage := fun _ => { totals := [7, 8], totalPages := 3 }

/-- A fetcher that always returns the scenario listing. -/
def fetchActiveOk : String → Except String (List ActiveListing) :=
  fun _ => .ok [gameBoyListing20]

/-- A sold-sample fetcher that fails on the keyword `"bad"`. -/
def fetchSoldFlaky : String → Except String (List ℚ) :=
  fun kw => if kw = "bad" then .error "boom" else .ok [80, 85, 90]

/-- A raw item whose price field does not parse. -/
def badPriceItem : RawItem :=
  { title := some "broken"
    itemId := some "9"
    viewItemURL := some "https://example.test/item/9"
    currentPrice := .malformed
    shippingServiceCost := .numeric 3 }

/-- A raw item with a valid price and an absent shipping cost. -/
def goodPriceItem : RawItem :=
  { title := some "ok"
    itemId := some "7"
    viewItemURL := some "https://example.test/item/7"
    currentPrice := .numeric 10
    shippingServiceCost := .absent }

/-! ## Helper lemmas -/

/-- Lemma: `compute_row` rewritten through `expectedProfit`, `marginOf` and
`acceptedRow`. -/
theorem compute_row_eq (keyword : String) (active : ActiveListing)
    (sold_totals : List ℚ) (ebay_fee_rate payment_fee_rate
    payment_fixed_fee shipping_out : ℚ) :
    compute_row keyword active sold_totals ebay_fee_rate payment_fee_rate
        payment_fixed_fee shipping_out =
      if sold_totals.length = 0 then none
      else if expectedProfit sold_totals ebay_fee_rate payment_fee_rate
          payment_fixed_fee shipping_out active.active_buy_price_gbp <
          MIN_PROFIT_GBP then none
      else if marginOf (expectedProfit sold_totals ebay_fee_rate
            payment_fee_rate payment_fixed_fee shipping_out
            active.active_buy_price_gbp) active.active_buy_price_gbp <
          MIN_MARGIN then none
      else some (acceptedRow keyword active sold_totals ebay_fee_rate
        payment_fee_rate payment_fixed_fee shipping_out) := rfl

/-- Acceptance is exactly the conjunction of the two threshold checks. -/
theorem compute_row_isSome_iff (keyword : String) (active : ActiveListing)
    (sold_totals : List ℚ) (ebay_fee_rate payment_fee_rate
    payment_fixed_fee shipping_out : ℚ) (h : sold_totals ≠ []) :
    (compute_row keyword active sold_totals ebay_fee_rate payment_fee_rate
        payment_fixed_fee shipping_out).isSome ↔
      MIN_PROFIT_GBP ≤ expectedProfit sold_totals ebay_fee_rate
          payment_fee_rate payment_fixed_fee shipping_out
          active.active_buy_price_gbp ∧
      MIN_MARGIN ≤ marginOf (expectedProfit sold_totals ebay_fee_rate
          payment_fee_rate payment_fixed_fee shipping_out
          active.active_buy_price_gbp) active.active_buy_price_gbp := by
  rw [compute_row_eq]
  rw [if_neg (by simpa using h)]
  split_ifs with h1 h2
  · simp only [Option.isSome_none, Bool.false_eq_true, false_iff, not_and]
    exact fun h' => absurd h1 (not_lt.2 h')
  · simp only [Option.isSome_none, Bool.false_eq_true, false_iff, not_and]
    exact fun _ h' => absurd h2 (not_lt.2 h')
  · simp only [Option.isSome_some, true_iff]
    exact ⟨le_of_not_lt h1, le_of_not_lt h2⟩

/-! ## Claims -/

/-- Claim C1: for every active listing, non-empty sold sample, and fee model,
`compute_row` returns a row if and only if `expected_profit ≥ 25.0` and
`margin ≥ 0.25` hold simultaneously; any pair failing either bound is
rejected. -/
theorem compute_row_accepts_iff_thresholds (keyword : String)
    (active : ActiveListing) (sold_totals : List ℚ)
    (ebay_fee_rate payment_fee_rate payment_fixed_fee shipping_out : ℚ)
    (h : sold_totals ≠ []) :
    (compute_row keyword active sold_totals ebay_fee_rate payment_fee_rate
        payment_fixed_fee shipping_out).isSome ↔
      (25.0 ≤ expectedProfit sold_totals ebay_fee_rate payment_fee_rate
          payment_fixed_fee shipping_out active.active_buy_price_gbp ∧
        0.25 ≤ marginOf (expectedProfit sold_totals ebay_fee_rate
            payment_fee_rate payment_fixed_fee shipping_out
            active.active_buy_price_gbp) active.active_buy_price_gbp) :=
  compute_row_isSome_iff keyword active sold_totals ebay_fee_rate
    payment_fee_rate payment_fixed_fee shipping_out h

/-- Witness for C1 at the accepted end-to-end scenario. -/
theorem compute_row_accepts_iff_thresholds_witness :
    ([80, 85, 90] : List ℚ) ≠ [] ∧
    ((compute_row "game boy" gameBoyListing20 [80, 85, 90]
        DEFAULT_EBAY_FEE_RATE DEFAULT_PAYMENT_FEE_RATE
        DEFAULT_PAYMENT_FIXED_FEE DEFAULT_SHIPPING_OUT).isSome ↔
      (25.0 ≤ expectedProfit [80, 85, 90] DEFAULT_EBAY_FEE_RATE
          DEFAULT_PAYMENT_FEE_RATE DEFAULT_PAYMENT_FIXED_FEE
          DEFAULT_SHIPPING_OUT gameBoyListing20.active_buy_price_gbp ∧
        0.25 ≤ marginOf (expectedProfit [80, 85, 90] DEFAULT_EBAY_FEE_RATE
            DEFAULT_PAYMENT_FEE_RATE DEFAULT_PAYMENT_FIXED_FEE
            DEFAULT_SHIPPING_OUT gameBoyListing20.active_buy_price_gbp)
          gameBoyListing20.active_buy_price_gbp)) :=
  ⟨by simp,
    compute_row_accepts_iff_thresholds "game boy" gameBoyListing20
      [80, 85, 90] DEFAULT_EBAY_FEE_RATE DEFAULT_PAYMENT_FEE_RATE
      DEFAULT_PAYMENT_FIXED_FEE DEFAULT_SHIPPING_OUT (by simp)⟩

/-- Claim C2: for every active listing and fee model, an empty sold sample makes
`compute_row` return no row. -/
theorem compute_row_empty_sample_rejects (keyword : String)
    (active : ActiveListing) (sold_totals : List ℚ)
    (ebay_fee_rate payment_fee_rate payment_fixed_fee shipping_out : ℚ)
    (h : sold_totals.length = 0) :
    compute_row keyword active sold_totals ebay_fee_rate payment_fee_rate
      payment_fixed_fee shipping_out = none := by
  rw [compute_row_eq, if_pos h]

/-- Witness for C2 at the empty sample. -/
theorem compute_row_empty_sample_rejects_witness :
    ([] : List ℚ).length = 0 ∧
    compute_row "game boy" gameBoyListing [] DEFAULT_EBAY_FEE_RATE
      DEFAULT_PAYMENT_FEE_RATE DEFAULT_PAYMENT_FIXED_FEE
      DEFAULT_SHIPPING_OUT = none :=
  ⟨rfl,
    compute_row_empty_sample_rejects "game boy" gameBoyListing []
      DEFAULT_EBAY_FEE_RATE DEFAULT_PAYMENT_FEE_RATE
      DEFAULT_PAYMENT_FIXED_FEE DEFAULT_SHIPPING_OUT rfl⟩

/-- Claim C3: `median` is the standard statistical median: on any sorted
permutation of the sample it reads the middle element (odd count) or the
average of the two middle elements (even count); in particular
`median [10, 20, 30] = 20` and `median [10, 20] = 15`. -/
theorem median_is_standard_median :
    (∀ (l s : List ℚ), l ≠ [] → s.Perm l → s.Sorted (· ≤ ·) →
      median l =
        if s.length % 2 = 1 then s.getD (s.length / 2) 0
        else (s.getD (s.length / 2 - 1) 0 + s.getD (s.length / 2) 0) / 2) ∧
    median [10, 20, 30] = 20 ∧ median [10, 20] = 15 := by
  refine ⟨?_, by norm_num [median, List.insertionSort, List.orderedInsert],
    by norm_num [median, List.insertionSort, List.orderedInsert]⟩
  intro l s _ hperm hsort
  have h2 : s = l.insertionSort (· ≤ ·) :=
    List.eq_of_perm_of_sorted
      (hperm.trans (List.perm_insertionSort (· ≤ ·) l).symm) hsort
      (List.sorted_insertionSort (· ≤ ·) l)
  simp only [median]
  rw [← h2]

/-- Witness for C3 at the two-element sample. -/
theorem median_is_standard_median_witness :
    ([10, 20] : List ℚ) ≠ [] ∧
    ([10, 20] : List ℚ).Perm [10, 20] ∧
    ([10, 20] : List ℚ).Sorted (· ≤ ·) ∧
    median [10, 20] =
      (if ([10, 20] : List ℚ).length % 2 = 1 then
        ([10, 20] : List ℚ).getD (([10, 20] : List ℚ).length / 2) 0
      else
        (([10, 20] : List ℚ).getD (([10, 20] : List ℚ).length / 2 - 1) 0 +
          ([10, 20] : List ℚ).getD (([10, 20] : List ℚ).length / 2) 0) / 2) :=
  ⟨by decide, List.Perm.refl _, by decide,
    median_is_standard_median.1 [10, 20] [10, 20] (by decide)
      (List.Perm.refl _) (by decide)⟩

/-- Every page the loop fetches stays within the `totalPages` bound that
the most recent response reported (the guard at `run.py` 190-191). -/
theorem fetchLoop_log_le (api : ℕ → ApiPage) (sold_limit : ℕ) :
    ∀ (fuel : ℕ) (totals : List ℚ) (page : ℕ) (root : ApiPage)
      (log : List (ℕ × ℕ)), (∀ pr ∈ log, pr.1 ≤ pr.2) →
      ∀ pr ∈ (fetchLoop api sold_limit fuel totals page root log).2,
        pr.1 ≤ pr.2 := by
  intro fuel
  induction fuel with
  | zero => intro totals page root log hlog; simpa [fetchLoop] using hlog
  | succ n ih =>
    intro totals page root log hlog
    rw [fetchLoop]
    by_cases h1 : totals.length < sold_limit
    · rw [if_pos h1]
      by_cases h2 : page + 1 > root.totalPages
      · rw [if_pos h2]; simpa using hlog
      · rw [if_neg h2]
        exact ih _ _ _ _ (by
          intro pr hpr
          rcases List.mem_append.1 hpr with hmem | hmem
          · exact hlog pr hmem
          · rcases List.mem_singleton.1 hmem with rfl
            exact le_of_not_lt h2)
    · rw [if_neg h1]; simpa using hlog

/-- Claim C4: the fetcher returns at most `sold_limit` totals (the final list is
truncated), and the loop never requests a page number above the
`totalPages` reported by the most recent response. -/
theorem find_sold_totals_bounds (api : ℕ → ApiPage) (sold_limit fuel : ℕ) :
    (find_sold_totals api sold_limit fuel).1.length ≤ sold_limit ∧
    ∀ pr ∈ (find_sold_totals api sold_limit fuel).2, pr.1 ≤ pr.2 := by
  constructor
  · simp [find_sold_totals]
  · intro pr hpr
    exact fetchLoop_log_le api sold_limit fuel _ 1 (api 1) []
      (by intro pr hpr; cases hpr) pr hpr

/-- Witness for C4: five totals requested over the constant three-page
API; pages 2 and 3 are fetched, each within the reported bound. -/
theorem find_sold_totals_bounds_witness :
    (find_sold_totals constApi 5 10).1.length ≤ 5 ∧
    ((2, 3) ∈ (find_sold_totals constApi 5 10).2 ∧ (2 : ℕ) ≤ 3) :=
  ⟨(find_sold_totals_bounds constApi 5 10).1,
    by decide, (find_sold_totals_bounds constApi 5 10).2 (2, 3) (by decide)⟩

/-- Claim C5: the end-to-end scenario: with buy price 45.00 the estimator
computes median 85, marketplace fee 10.88, payment fee 2.765, expected
profit 21.855 and rejects; with buy price 20.00 it computes expected
profit 46.855, margin 2.34275 and accepts. -/
theorem game_boy_scenario :
    median [80, 85, 90] = 85 ∧
    median [80, 85, 90] * DEFAULT_EBAY_FEE_RATE = 10.88 ∧
    median [80, 85, 90] * DEFAULT_PAYMENT_FEE_RATE +
      DEFAULT_PAYMENT_FIXED_FEE = 2.765 ∧
    expectedProfit [80, 85, 90] DEFAULT_EBAY_FEE_RATE
      DEFAULT_PAYMENT_FEE_RATE DEFAULT_PAYMENT_FIXED_FEE
      DEFAULT_SHIPPING_OUT 45 = 21.855 ∧
    compute_row "game boy" gameBoyListing [80, 85, 90]
      DEFAULT_EBAY_FEE_RATE DEFAULT_PAYMENT_FEE_RATE
      DEFAULT_PAYMENT_FIXED_FEE DEFAULT_SHIPPING_OUT = none ∧
    expectedProfit [80, 85, 90] DEFAULT_EBAY_FEE_RATE
      DEFAULT_PAYMENT_FEE_RATE DEFAULT_PAYMENT_FIXED_FEE
      DEFAULT_SHIPPING_OUT 20 = 46.855 ∧
    marginOf 46.855 20 = 2.34275 ∧
    (compute_row "game boy" gameBoyListing20 [80, 85, 90]
      DEFAULT_EBAY_FEE_RATE DEFAULT_PAYMENT_FEE_RATE
      DEFAULT_PAYMENT_FIXED_FEE DEFAULT_SHIPPING_OUT).isSome = true := by
  refine ⟨?_, ?_, ?_, ?_, ?_, ?_, ?_, ?_⟩ <;>
    norm_num [median, List.insertionSort, List.orderedInsert,
      expectedProfit, marginOf, compute_row, DEFAULT_EBAY_FEE_RATE,
      DEFAULT_PAYMENT_FEE_RATE, DEFAULT_PAYMENT_FIXED_FEE,
      DEFAULT_SHIPPING_OUT, MIN_PROFIT_GBP, MIN_MARGIN,
      gameBoyListing, gameBoyListing20]

/-- Claim C6: for a non-positive buy price the margin is the sentinel `-1`
(no quotient is formed), the sentinel is below the margin threshold, and
the listing is always rejected. -/
theorem nonpositive_buy_price_rejected (keyword : String)
    (active : ActiveListing) (sold_totals : List ℚ)
    (ebay_fee_rate payment_fee_rate payment_fixed_fee shipping_out
    expected_profit : ℚ) (h : active.active_buy_price_gbp ≤ 0) :
    marginOf expected_profit active.active_buy_price_gbp = -1 ∧
    marginOf expected_profit active.active_buy_price_gbp < MIN_MARGIN ∧
    compute_row keyword active sold_totals ebay_fee_rate payment_fee_rate
      payment_fixed_fee shipping_out = none := by
  have hmg : ∀ q : ℚ, marginOf q active.active_buy_price_gbp = -1 :=
    fun q => if_neg (not_lt.2 h)
  refine ⟨hmg _, ?_, ?_⟩
  · rw [hmg]; norm_num [MIN_MARGIN]
  · rw [compute_row_eq]
    split_ifs with h1 h2 h3
    · rfl
    · rfl
    · rfl
    · rw [hmg] at h3
      exact absurd (by norm_num [MIN_MARGIN] : (-1 : ℚ) < MIN_MARGIN) h3

/-- Witness for C6 at the zero-priced listing. -/
theorem nonpositive_buy_price_rejected_witness :
    zeroBuyListing.active_buy_price_gbp ≤ 0 ∧
    (marginOf 100 zeroBuyListing.active_buy_price_gbp = -1 ∧
      marginOf 100 zeroBuyListing.active_buy_price_gbp < MIN_MARGIN ∧
      compute_row "game boy" zeroBuyListing [80, 85, 90]
        DEFAULT_EBAY_FEE_RATE DEFAULT_PAYMENT_FEE_RATE
        DEFAULT_PAYMENT_FIXED_FEE DEFAULT_SHIPPING_OUT = none) :=
  ⟨le_refl 0,
    nonpositive_buy_price_rejected "game boy" zeroBuyListing [80, 85, 90]
      DEFAULT_EBAY_FEE_RATE DEFAULT_PAYMENT_FEE_RATE
      DEFAULT_PAYMENT_FIXED_FEE DEFAULT_SHIPPING_OUT 100 (le_refl 0)⟩

/-- Shifting the accumulator out of `mainRows`' fold. -/
theorem mainRows_foldl_acc
    (find_active : String → Except String (List ActiveListing))
    (find_sold : String → Except String (List ℚ))
    (ebay_fee_rate payment_fee_rate payment_fixed_fee shipping_out : ℚ)
    (keywords : List String) :
    ∀ acc : List OpportunityRow,
      keywords.foldl
        (fun rows kw =>
          rows ++ keywordRows find_active find_sold ebay_fee_rate
            payment_fee_rate payment_fixed_fee shipping_out kw) acc =
      acc ++ mainRows find_active find_sold ebay_fee_rate payment_fee_rate
        payment_fixed_fee shipping_out keywords := by
  induction keywords with
  | nil => intro acc; simp [mainRows]
  | cons k ks ih =>
    intro acc
    rw [mainRows, List.foldl_cons, List.foldl_cons, ih, ih, List.nil_append,
      List.append_assoc]

/-- Lemma: `mainRows` distributes over keyword-list concatenation. -/
theorem mainRows_append
    (find_active : String → Except String (List ActiveListing))
    (find_sold : String → Except String (List ℚ))
    (ebay_fee_rate payment_fee_rate payment_fixed_fee shipping_out : ℚ)
    (l1 l2 : List String) :
    mainRows find_active find_sold ebay_fee_rate payment_fee_rate
        payment_fixed_fee shipping_out (l1 ++ l2) =
      mainRows find_active find_sold ebay_fee_rate payment_fee_rate
          payment_fixed_fee shipping_out l1 ++
        mainRows find_active find_sold ebay_fee_rate payment_fee_rate
          payment_fixed_fee shipping_out l2 := by
  rw [mainRows, List.foldl_append, mainRows_foldl_acc, ← mainRows]

/-- Claim C7: a fetch failure on one keyword makes that keyword contribute zero
rows, and the pipeline's output over the whole keyword list is exactly
what the remaining keywords produce. -/
theorem keyword_failure_isolated
    (find_active : String → Except String (List ActiveListing))
    (find_sold : String → Except String (List ℚ))
    (ebay_fee_rate payment_fee_rate payment_fixed_fee shipping_out : ℚ)
    (kw err : String) (pre post : List String)
    (h : find_active kw = .error err ∨ find_sold kw = .error err) :
    keywordRows find_active find_sold ebay_fee_rate payment_fee_rate
        payment_fixed_fee shipping_out kw = [] ∧
    mainRows find_active find_sold ebay_fee_rate payment_fee_rate
        payment_fixed_fee shipping_out (pre ++ kw :: post) =
      mainRows find_active find_sold ebay_fee_rate payment_fee_rate
        payment_fixed_fee shipping_out (pre ++ post) := by
  have hkw : keywordRows find_active find_sold ebay_fee_rate
      payment_fee_rate payment_fixed_fee shipping_out kw = [] := by
    rcases h with h | h
    · simp [keywordRows, h]
    · cases hfa : find_active kw <;> simp [keywordRows, hfa, h]
  refine ⟨hkw, ?_⟩
  rw [mainRows_append, mainRows_append]
  have hcons : mainRows find_active find_sold ebay_fee_rate
      payment_fee_rate payment_fixed_fee shipping_out (kw :: post) =
      mainRows find_active find_sold ebay_fee_rate payment_fee_rate
        payment_fixed_fee shipping_out post := by
    rw [mainRows, List.foldl_cons, mainRows_foldl_acc, List.nil_append,
      hkw, List.nil_append, mainRows]
  rw [hcons]

/-- Witness for C7: the keyword `"bad"` fails its sold fetch and drops
out of a three-keyword run. -/
theorem keyword_failure_isolated_witness :
    (fetchActiveOk "bad" = .error "boom" ∨
      fetchSoldFlaky "bad" = .error "boom") ∧
    (keywordRows fetchActiveOk fetchSoldFlaky DEFAULT_EBAY_FEE_RATE
        DEFAULT_PAYMENT_FEE_RATE DEFAULT_PAYMENT_FIXED_FEE
        DEFAULT_SHIPPING_OUT "bad" = [] ∧
      mainRows fetchActiveOk fetchSoldFlaky DEFAULT_EBAY_FEE_RATE
          DEFAULT_PAYMENT_FEE_RATE DEFAULT_PAYMENT_FIXED_FEE
          DEFAULT_SHIPPING_OUT (["good1"] ++ "bad" :: ["good2"]) =
        mainRows fetchActiveOk fetchSoldFlaky DEFAULT_EBAY_FEE_RATE
          DEFAULT_PAYMENT_FEE_RATE DEFAULT_PAYMENT_FIXED_FEE
          DEFAULT_SHIPPING_OUT (["good1"] ++ ["good2"])) :=
  ⟨Or.inr rfl,
    keyword_failure_isolated fetchActiveOk fetchSoldFlaky
      DEFAULT_EBAY_FEE_RATE DEFAULT_PAYMENT_FEE_RATE
      DEFAULT_PAYMENT_FIXED_FEE DEFAULT_SHIPPING_OUT "bad" "boom"
      ["good1"] ["good2"] (Or.inr rfl)⟩

/-- Claim C8: the parser silently drops a record whose price does not parse,
and for a record with a valid price it defaults shipping to zero when the
shipping value does not parse, still emitting the record. -/
theorem parser_drops_bad_price_defaults_shipping
    (pre post : List RawItem) (it : RawItem) :
    (getPrice it.currentPrice = none →
      parse_active_items (pre ++ it :: post) =
        parse_active_items (pre ++ post)) ∧
    (∀ p : ℚ, getPrice it.currentPrice = some p →
      getPrice it.shippingServiceCost = none →
      parse_active_items (pre ++ it :: post) =
        parse_active_items pre ++
          { active_title := (it.title.getD "").trim
            active_item_id := (it.itemId.getD "").trim
            active_url := (it.viewItemURL.getD "").trim
            active_price_gbp := p
            active_shipping_gbp := 0
            active_buy_price_gbp := p } :: parse_active_items post) := by
  constructor
  · intro hp
    simp [parse_active_items, List.filterMap_append, List.filterMap_cons, hp]
  · intro p hp hs
    simp [parse_active_items, List.filterMap_append, List.filterMap_cons,
      hp, hs]

/-- Witness for C8: a malformed-price record vanishes; a valid-price
record with absent shipping is kept with shipping 0. -/
theorem parser_drops_bad_price_defaults_shipping_witness :
    parse_active_items ([] ++ badPriceItem :: []) =
      parse_active_items ([] ++ []) ∧
    parse_active_items ([] ++ goodPriceItem :: []) =
      parse_active_items [] ++
        { active_title := (goodPriceItem.title.getD "").trim
          active_item_id := (goodPriceItem.itemId.getD "").trim
          active_url := (goodPriceItem.viewItemURL.getD "").trim
          active_price_gbp := 10
          active_shipping_gbp := 0
          active_buy_price_gbp := 10 } :: parse_active_items [] :=
  ⟨(parser_drops_bad_price_defaults_shipping [] [] badPriceItem).1 rfl,
    (parser_drops_bad_price_defaults_shipping [] [] goodPriceItem).2
      10 rfl rfl⟩

/-- Claim C9: every field of an accepted row that is currency-valued is a whole
number of hundredths (2 decimal places), and the margin percentage is a
whole number of tenths (1 decimal place). -/
theorem accepted_row_rounding (keyword : String) (active : ActiveListing)
    (sold_totals : List ℚ) (ebay_fee_rate payment_fee_rate
    payment_fixed_fee shipping_out : ℚ) (row : OpportunityRow)
    (h : compute_row keyword active sold_totals ebay_fee_rate
      payment_fee_rate payment_fixed_fee shipping_out = some row) :
    (∃ n : ℤ, row.active_buy_price_gbp = n / 100) ∧
    (∃ n : ℤ, row.median_sold_price_gbp = n / 100) ∧
    (∃ n : ℤ, row.ebay_fee_gbp = n / 100) ∧
    (∃ n : ℤ, row.payment_fee_gbp = n / 100) ∧
    (∃ n : ℤ, row.shipping_out_gbp = n / 100) ∧
    (∃ n : ℤ, row.expected_profit_gbp = n / 100) ∧
    (∃ n : ℤ, row.margin_percent = n / 10) := by
  have hrow : row = acceptedRow keyword active sold_totals ebay_fee_rate
      payment_fee_rate payment_fixed_fee shipping_out := by
    rw [compute_row_eq] at h
    split_ifs at h
    exact (Option.some.injEq _ _ ▸ h).symm
  have h2 : ∀ x : ℚ, ∃ n : ℤ, pyRound x 2 = n / 100 := fun x =>
    ⟨roundHalfEven (x * 10 ^ 2), by norm_num [pyRound]⟩
  have h1 : ∀ x : ℚ, ∃ n : ℤ, pyRound x 1 = n / 10 := fun x =>
    ⟨roundHalfEven (x * 10 ^ 1), by norm_num [pyRound]⟩
  subst hrow
  exact ⟨h2 _, h2 _, h2 _, h2 _, h2 _, h2 _, h1 _⟩

/-- Witness for C9 at the accepted end-to-end scenario row. -/
theorem accepted_row_rounding_witness :
    compute_row "game boy" gameBoyListing20 [80, 85, 90]
      DEFAULT_EBAY_FEE_RATE DEFAULT_PAYMENT_FEE_RATE
      DEFAULT_PAYMENT_FIXED_FEE DEFAULT_SHIPPING_OUT = some gameBoyRow ∧
    ((∃ n : ℤ, gameBoyRow.active_buy_price_gbp = n / 100) ∧
      (∃ n : ℤ, gameBoyRow.median_sold_price_gbp = n / 100) ∧
      (∃ n : ℤ, gameBoyRow.ebay_fee_gbp = n / 100) ∧
      (∃ n : ℤ, gameBoyRow.payment_fee_gbp = n / 100) ∧
      (∃ n : ℤ, gameBoyRow.shipping_out_gbp = n / 100) ∧
      (∃ n : ℤ, gameBoyRow.expected_profit_gbp = n / 100) ∧
      (∃ n : ℤ, gameBoyRow.margin_percent = n / 10)) := by
  have h : compute_row "game boy" gameBoyListing20 [80, 85, 90]
      DEFAULT_EBAY_FEE_RATE DEFAULT_PAYMENT_FEE_RATE
      DEFAULT_PAYMENT_FIXED_FEE DEFAULT_SHIPPING_OUT = some gameBoyRow := by
    norm_num [compute_row, median, List.insertionSort, List.orderedInsert,
      DEFAULT_EBAY_FEE_RATE, DEFAULT_PAYMENT_FEE_RATE,
      DEFAULT_PAYMENT_FIXED_FEE, DEFAULT_SHIPPING_OUT, MIN_PROFIT_GBP,
      MIN_MARGIN, gameBoyListing, gameBoyListing20, gameBoyRow, pyRound,
      roundHalfEven]
  exact ⟨h, accepted_row_rounding "game boy" gameBoyListing20 [80, 85, 90]
    DEFAULT_EBAY_FEE_RATE DEFAULT_PAYMENT_FEE_RATE
    DEFAULT_PAYMENT_FIXED_FEE DEFAULT_SHIPPING_OUT gameBoyRow h⟩

/-- Claim C10: acceptance is monotone in acquisition cost: if a listing is
accepted at buy price `b`, the same listing at any buy price
`0 < b' ≤ b` is also accepted. -/
theorem accept_monotone_in_buy_price (keyword : String)
    (active : ActiveListing) (sold_totals : List ℚ)
    (ebay_fee_rate payment_fee_rate payment_fixed_fee shipping_out
    b2 : ℚ) (hb : 0 < b2) (hle : b2 ≤ active.active_buy_price_gbp)
    (hacc : (compute_row keyword active sold_totals ebay_fee_rate
      payment_fee_rate payment_fixed_fee shipping_out).isSome) :
    (compute_row keyword { active with active_buy_price_gbp := b2 }
      sold_totals ebay_fee_rate payment_fee_rate payment_fixed_fee
      shipping_out).isSome := by
  have hl : sold_totals ≠ [] := by
    rintro rfl
    rw [compute_row_eq] at hacc
    simp at hacc
  rw [compute_row_isSome_iff _ _ _ _ _ _ _ hl] at hacc
  rw [compute_row_isSome_iff _ _ _ _ _ _ _ hl]
  obtain ⟨hp, hm⟩ := hacc
  have hproj : ({ active with active_buy_price_gbp := b2 } :
      ActiveListing).active_buy_price_gbp = b2 := rfl
  rw [hproj]
  have hb0 : 0 < active.active_buy_price_gbp := lt_of_lt_of_le hb hle
  have hep : expectedProfit sold_totals ebay_fee_rate payment_fee_rate
      payment_fixed_fee shipping_out b2 =
      expectedProfit sold_totals ebay_fee_rate payment_fee_rate
        payment_fixed_fee shipping_out active.active_buy_price_gbp +
      (active.active_buy_price_gbp - b2) := by
    simp only [expectedProfit]
    ring
  have hple : expectedProfit sold_totals ebay_fee_rate payment_fee_rate
      payment_fixed_fee shipping_out active.active_buy_price_gbp ≤
      expectedProfit sold_totals ebay_fee_rate payment_fee_rate
        payment_fixed_fee shipping_out b2 := by
    rw [hep]
    linarith
  have hppos : 0 < expectedProfit sold_totals ebay_fee_rate
      payment_fee_rate payment_fixed_fee shipping_out
      active.active_buy_price_gbp :=
    lt_of_lt_of_le (by norm_num [MIN_PROFIT_GBP]) hp
  constructor
  · exact le_trans hp hple
  · rw [marginOf, if_pos hb0] at hm
    rw [marginOf, if_pos hb]
    calc MIN_MARGIN ≤ expectedProfit sold_totals ebay_fee_rate
          payment_fee_rate payment_fixed_fee shipping_out
          active.active_buy_price_gbp / active.active_buy_price_gbp := hm
      _ ≤ expectedProfit sold_totals ebay_fee_rate payment_fee_rate
            payment_fixed_fee shipping_out b2 / b2 :=
        div_le_div₀ (le_of_lt (lt_of_lt_of_le hppos hple)) hple hb hle

/-- Witness for C10: lowering the accepted scenario's buy price from
20.00 to 10.00 keeps it accepted. -/
theorem accept_monotone_in_buy_price_witness :
    (0 : ℚ) < 10 ∧ (10 : ℚ) ≤ gameBoyListing20.active_buy_price_gbp ∧
    (compute_row "game boy"
      { gameBoyListing20 with active_buy_price_gbp := 10 } [80, 85, 90]
      DEFAULT_EBAY_FEE_RATE DEFAULT_PAYMENT_FEE_RATE
      DEFAULT_PAYMENT_FIXED_FEE DEFAULT_SHIPPING_OUT).isSome :=
  ⟨by norm_num, by norm_num [gameBoyListing20, gameBoyListing],
    accept_monotone_in_buy_price "game boy" gameBoyListing20 [80, 85, 90]
      DEFAULT_EBAY_FEE_RATE DEFAULT_PAYMENT_FEE_RATE
      DEFAULT_PAYMENT_FIXED_FEE DEFAULT_SHIPPING_OUT 10 (by norm_num)
      (by norm_num [gameBoyListing20, gameBoyListing])
      (by norm_num [compute_row, median, List.insertionSort,
        List.orderedInsert, DEFAULT_EBAY_FEE_RATE,
        DEFAULT_PAYMENT_FEE_RATE, DEFAULT_PAYMENT_FIXED_FEE,
        DEFAULT_SHIPPING_OUT, MIN_PROFIT_GBP, MIN_MARGIN,
        gameBoyListing, gameBoyListing20])⟩

end EbayFlipper
